import Mathlib

/-!
Verification of the elastix registration-core specification against the
repository sources.  The repository ships the C++ headers of
`itk::RSGDEachParameterApartBaseOptimizer` (inside
`elxMovingShrinkingPyramid.h`), `elx::MultiMetricMultiResolutionRegistration`
and `elx::AdvancedMattesMutualInformationMetric`; the corresponding
implementation units (`.cxx` / `.hxx`) are not part of the source tree, so
the behaviour of the optimization loop, the metric combiner and the sample
check is modelled from the specification, while member defaults and inline
member functions are embedded directly from the headers.
-/

namespace Elastix

/-- Codes of stopping conditions, from the `StopConditionType` enum of
`itkRSGDEachParameterApartBaseOptimizer.h` (lines 159-168). -/
inductive StopConditionType where
  | GradientMagnitudeTolerance
  | StepTooSmall
  | ImageNotAvailable
  | SamplesNotAvailable
  | MaximumNumberOfIterations
  | MetricError
  deriving DecidableEq

/-- The integer codes assigned by the C++ enum
(`GradientMagnitudeTolerance = 1`, the rest following in order). -/
def StopConditionType.toCode : StopConditionType → ℕ
  | .GradientMagnitudeTolerance => 1
  | .StepTooSmall => 2
  | .ImageNotAvailable => 3
  | .SamplesNotAvailable => 4
  | .MaximumNumberOfIterations => 5
  | .MetricError => 6

/-- The data members of `itk::RSGDEachParameterApartBaseOptimizer` with their
default member initializers, embedded from
`itkRSGDEachParameterApartBaseOptimizer.h` lines 269-288.  `DerivativeType`
(a vector of doubles) is embedded as `List ℚ`, `double` as `ℚ`. -/
structure RSGDEachParameterApartBaseOptimizer where
  m_Gradient : List ℚ := []
  m_PreviousGradient : List ℚ := []
  m_Stop : Bool := false
  m_Maximize : Bool := false
  m_Value : ℚ := 0
  m_GradientMagnitudeTolerance : ℚ := 1 / 10000
  m_MaximumStepLength : ℚ := 1
  m_MinimumStepLength : ℚ := 1 / 1000
  m_CurrentStepLengths : List ℚ := []
  m_CurrentStepLength : ℚ := 0
  m_StopCondition : StopConditionType := .MaximumNumberOfIterations
  m_NumberOfIterations : ℕ := 100
  m_CurrentIteration : ℕ := 0
  m_GradientMagnitude : ℚ := 0

/-- A freshly constructed optimizer: every member takes its default
member initializer (the constructor body adds nothing). -/
def defaultOptimizer : RSGDEachParameterApartBaseOptimizer := {}

/-- `GetMaximize`, from the `itkGetConstMacro(Maximize, bool)` accessor. -/
def GetMaximize (o : RSGDEachParameterApartBaseOptimizer) : Bool :=
  o.m_Maximize

/-- `GetMinimize`, embedded from the inline body
`return !m_Maximize;` (header lines 174-178). -/
def GetMinimize (o : RSGDEachParameterApartBaseOptimizer) : Bool :=
  !o.m_Maximize

/-- `SetMaximize`, from `itkSetMacro(Maximize, bool)`. -/
def SetMaximize (o : RSGDEachParameterApartBaseOptimizer) (v : Bool) :
    RSGDEachParameterApartBaseOptimizer :=
  { o with m_Maximize := v }

/-- `SetMinimize`, embedded from the inline body
`this->SetMaximize(!v);` (header lines 179-183). -/
def SetMinimize (o : RSGDEachParameterApartBaseOptimizer) (v : Bool) :
    RSGDEachParameterApartBaseOptimizer :=
  SetMaximize o (!v)

/-! ## Multi-metric combiner

Modelled from the spec: the implementation of the `CombinationMetricType`
used by `MultiMetricMultiResolutionRegistration` (its header only declares
the typedef, lines 166-168) is not part of the source tree.  The model
follows spec section 4.3: a weighted sum over the adapters whose `Use` flag
is set for the current resolution level. -/

/-- One metric adapter as seen by the combiner: its per-level `Use` flag
(`Metric<i>Use` parameter), its weight, and its latest value and gradient.
The gradient is embedded as a function from parameter index to scalar. -/
structure SubMetric where
  use : Bool
  weight : ℚ
  value : ℚ
  gradient : ℕ → ℚ

/-- Modelled from the spec: `combinedValue = Σ_i weight_i * value_i`,
summed only over adapters with `Use=true` for the current level.  The
missing code is the combination metric implementation. -/
def combinedValue : List SubMetric → ℚ
  | [] => 0
  | m :: ms => (if m.use then m.weight * m.value else 0) + combinedValue ms

/-- Modelled from the spec: `combinedGradient = Σ_i weight_i * gradient_i`,
summed only over adapters with `Use=true` for the current level, at each
parameter index `k`. -/
def combinedGradient : List SubMetric → ℕ → ℚ
  | [], _ => 0
  | m :: ms, k => (if m.use then m.weight * m.gradient k else 0) + combinedGradient ms k

/-! ## Sample-count sanity check (Metric Adapter)

Modelled from the spec: the body of
`AdvancedMattesMutualInformationMetric::BeforeEachResolution` and the
superclass sample check live in the missing `.hxx` implementation; the
header documents the `CheckNumberOfSamples` parameter ("whether the metric
checks if at least 1/4 of the samples map inside the moving image",
default `"true"`, one value per resolution level). -/

/-- Modelled from the spec: the sample-count sanity check fails (with
`SamplesNotAvailable`) exactly when it is enabled and fewer than 1/4 of
the drawn samples map inside the valid region of the moving image. -/
def sampleCheckFails (check : Bool) (numSamplesFound numSamplesDrawn : ℕ) : Bool :=
  check && decide (4 * numSamplesFound < numSamplesDrawn)

/-- Modelled from the spec: the `CheckNumberOfSamples` flag is read per
resolution level, with default `true` when the parameter is not given for
that level. -/
def checkNumberOfSamplesAtLevel (flags : List Bool) (level : ℕ) : Bool :=
  flags.getD level true

/-! ## The per-parameter adaptive gradient optimizer

Modelled from the spec: the bodies of `StartOptimization`,
`ResumeOptimization` and `AdvanceOneStep` of
`itk::RSGDEachParameterApartBaseOptimizer` (and of the derived class
overriding `StepAlongGradient`) live in the missing `.cxx` implementation;
the header only declares them.  The model follows spec section 4.1
step by step.  Scalars are embedded as `ℝ` since the gradient magnitude is
a Euclidean norm. -/

/-- Three-list pointwise combination, used for per-parameter updates. -/
def zipWith3 (f : α → β → γ → δ) : List α → List β → List γ → List δ
  | a :: as, b :: bs, c :: cs => f a b c :: zipWith3 f as bs cs
  | _, _, _ => []

/-- Sum of squares of a vector of reals. -/
def sqNorm (g : List ℝ) : ℝ :=
  (g.map (fun x => x * x)).sum

/-- Euclidean norm of a vector of reals. -/
noncomputable def enorm (g : List ℝ) : ℝ :=
  Real.sqrt (sqNorm g)

/-- The reasons a metric evaluation can fail (spec sections 4.1-4.2). -/
inductive MetricFailure where
  | imageNotAvailable
  | samplesNotAvailable
  | metricError
  deriving DecidableEq

/-- The stop condition recorded for each kind of metric failure. -/
def MetricFailure.toStopCondition : MetricFailure → StopConditionType
  | .imageNotAvailable => .ImageNotAvailable
  | .samplesNotAvailable => .SamplesNotAvailable
  | .metricError => .MetricError

/-- The outcome of one combiner evaluation at the current parameters. -/
inductive MetricEval where
  | ok (value : ℝ) (gradient : List ℝ)
  | fail (f : MetricFailure)

/-- The configuration of the optimizer (spec section 6: `MaximumStepLength`,
`MinimumStepLength`, `NumberOfIterations`, `GradientMagnitudeTolerance`,
maximize/minimize flag).  Modelled from the spec: the spec only states that
step lengths change "multiplicatively", so the two factors are configuration
parameters of the model. -/
structure OptConfig where
  maximize : Bool
  gradientMagnitudeTolerance : ℝ
  maximumStepLength : ℝ
  minimumStepLength : ℝ
  numberOfIterations : ℕ
  increaseFactor : ℝ
  decreaseFactor : ℝ

/-- The mutable state of one optimization run (spec sections 3 and 4.1). -/
structure OptState where
  parameters : List ℝ
  currentStepLengths : List ℝ
  previousGradient : List ℝ
  currentIteration : ℕ
  stop : Bool
  stopCondition : StopConditionType
  value : ℝ
  gradient : List ℝ
  gradientMagnitude : ℝ

/-- Modelled from the spec (section 4.1 step 2): if configured to maximize,
negate the gradient — the internal convention is always "descend". -/
def flipForMaximize (cfg : OptConfig) (g : List ℝ) : List ℝ :=
  if cfg.maximize then g.map (fun x => -x) else g

/-- Modelled from the spec (section 4.1 step 4): per-parameter step-length
adaptation.  If the sign of the current gradient component agrees with the
sign of the previous one (zero counting as agreement), the step length is
increased multiplicatively and capped at `MaximumStepLength`; if the signs
disagree it is decreased multiplicatively. -/
noncomputable def adaptStep (cfg : OptConfig) (g p st : ℝ) : ℝ :=
  if 0 ≤ g * p then min (st * cfg.increaseFactor) cfg.maximumStepLength
  else st * cfg.decreaseFactor

/-- Step-length adaptation applied to every parameter. -/
noncomputable def adaptSteps (cfg : OptConfig) (g prev steps : List ℝ) : List ℝ :=
  zipWith3 (fun gk pk stk => adaptStep cfg gk pk stk) g prev steps

/-- Modelled from the spec (section 4.1 step 6, the overridden
`StepAlongGradient`): each parameter moves by its own adapted step length
along the normalized gradient direction component,
`parameter[k] -= stepLength[k] * sign(gradient[k]) * |gradient[k]| / gradientMagnitude`. -/
noncomputable def stepParams (g : List ℝ) (mag : ℝ) (steps params : List ℝ) : List ℝ :=
  zipWith3 (fun p stk gk => p - stk * (Real.sign gk * |gk|) / mag) params steps g

/-- Modelled from the spec (section 4.1 steps 3-7): the body of one
iteration after a successful metric evaluation, on the already sign-flipped
gradient `g`.  Compute the gradient magnitude and stop below the tolerance;
adapt the per-parameter step lengths; stop when every step length is below
the minimum; otherwise apply the per-parameter update, store the gradient
as previous gradient, increment the iteration counter, and stop with
`MaximumNumberOfIterations` when the counter reaches the budget. -/
noncomputable def advanceOk (cfg : OptConfig) (v : ℝ) (g : List ℝ) (s : OptState) : OptState :=
  if enorm g < cfg.gradientMagnitudeTolerance then
    { s with value := v, gradient := g, gradientMagnitude := enorm g,
             stop := true, stopCondition := .GradientMagnitudeTolerance }
  else if ∀ st ∈ adaptSteps cfg g s.previousGradient s.currentStepLengths,
      st < cfg.minimumStepLength then
    { s with value := v, gradient := g, gradientMagnitude := enorm g,
             currentStepLengths := adaptSteps cfg g s.previousGradient s.currentStepLengths,
             stop := true, stopCondition := .StepTooSmall }
  else
    { s with value := v, gradient := g, gradientMagnitude := enorm g,
             currentStepLengths := adaptSteps cfg g s.previousGradient s.currentStepLengths,
             parameters := stepParams g (enorm g)
               (adaptSteps cfg g s.previousGradient s.currentStepLengths) s.parameters,
             previousGradient := g,
             currentIteration := s.currentIteration + 1,
             stop := if cfg.numberOfIterations ≤ s.currentIteration + 1 then true
                     else s.stop,
             stopCondition := if cfg.numberOfIterations ≤ s.currentIteration + 1 then
                                .MaximumNumberOfIterations
                              else s.stopCondition }

/-- Modelled from the spec (section 4.1, `AdvanceOneStep`): one iteration of
the optimizer, given the metric evaluation at the current parameters.  A
failed evaluation records the corresponding stop condition and stops without
touching the parameters (step 1); a successful one proceeds with the
possibly sign-flipped gradient (step 2 onward). -/
noncomputable def advanceOneStep (cfg : OptConfig) (ev : MetricEval) (s : OptState) : OptState :=
  match ev with
  | .fail f => { s with stop := true, stopCondition := f.toStopCondition }
  | .ok v g0 => advanceOk cfg v (flipForMaximize cfg g0) s

/-- Modelled from the spec: one trip around the `ResumeOptimization` loop —
when the iteration budget is already exhausted the optimizer stops with
`MaximumNumberOfIterations`, otherwise it queries the combiner at the
current parameters and advances one step. -/
noncomputable def resumeStep (cfg : OptConfig) (metric : List ℝ → MetricEval)
    (s : OptState) : OptState :=
  if cfg.numberOfIterations ≤ s.currentIteration then
    { s with stop := true, stopCondition := .MaximumNumberOfIterations }
  else
    advanceOneStep cfg (metric s.parameters) s

/-- Modelled from the spec: the `ResumeOptimization` loop, iterating
`resumeStep` while the stop flag is unset (with explicit fuel). -/
noncomputable def runLoop (cfg : OptConfig) (metric : List ℝ → MetricEval) :
    ℕ → OptState → OptState
  | 0, s => s
  | Nat.succ fuel, s =>
    if s.stop then s else runLoop cfg metric fuel (resumeStep cfg metric s)

/-- Modelled from the spec: `ResumeOptimization` re-enters the loop from the
current state.  The fuel `NumberOfIterations + 1 - CurrentIteration` is
enough for the loop to reach a stop on its own. -/
noncomputable def resumeOptimization (cfg : OptConfig) (metric : List ℝ → MetricEval)
    (s : OptState) : OptState :=
  runLoop cfg metric (cfg.numberOfIterations + 1 - s.currentIteration) s

/-- Modelled from the spec: the state set up by `StartOptimization` —
iteration counter reset, all step lengths reset to `MaximumStepLength`,
previous gradient reset to zero. -/
def initialState (cfg : OptConfig) (p : List ℝ) : OptState :=
  { parameters := p
    currentStepLengths := p.map (fun _ => cfg.maximumStepLength)
    previousGradient := p.map (fun _ => 0)
    currentIteration := 0
    stop := false
    stopCondition := .MaximumNumberOfIterations
    value := 0
    gradient := []
    gradientMagnitude := 0 }

/-- Modelled from the spec: `StartOptimization` resets the state and runs
the optimization loop to completion. -/
noncomputable def startOptimization (cfg : OptConfig) (metric : List ℝ → MetricEval)
    (p : List ℝ) : OptState :=
  resumeOptimization cfg metric (initialState cfg p)

/-! ## Dynamic relative weighting

Modelled from the spec (section 4.3): the weight computation of the missing
combination metric implementation under `UseRelativeWeights`. -/

/-- Modelled from the spec: under dynamic (relative) weighting,
`weight_i = relativeWeight_i * (||gradient_0|| / ||gradient_i||)` with
adapter 0 as the reference, and the weight is fixed at 0 when
`||gradient_i||` is exactly zero. -/
noncomputable def relativeWeight (rw : ℝ) (g0 gi : List ℝ) : ℝ :=
  if enorm gi = 0 then 0 else rw * (enorm g0 / enorm gi)

/-! ## Helper lemmas -/

/-- `sign(x) * |x| = x` over the reals. -/
theorem sign_mul_abs_eq (x : ℝ) : Real.sign x * |x| = x := by
  rcases lt_trichotomy x 0 with h | h | h
  · rw [Real.sign_of_neg h, abs_of_neg h]
    ring
  · subst h
    rw [Real.sign_zero, abs_zero, mul_zero]
  · rw [Real.sign_of_pos h, abs_of_pos h, one_mul]

/-- Pointwise-equal combining functions give equal `zipWith3` results. -/
theorem zipWith3_congr {α β γ δ : Type} {f g : α → β → γ → δ}
    (h : ∀ a b c, f a b c = g a b c) :
    ∀ (as : List α) (bs : List β) (cs : List γ),
      zipWith3 f as bs cs = zipWith3 g as bs cs
  | [], bs, cs => by cases bs <;> cases cs <;> rfl
  | _ :: _, [], cs => by cases cs <;> rfl
  | _ :: _, _ :: _, [] => rfl
  | a :: as, b :: bs, c :: cs => by
    simp only [zipWith3]
    rw [h a b c, zipWith3_congr h as bs cs]

/-- The Euclidean norm of a one-component vector is the absolute value. -/
theorem enorm_singleton (x : ℝ) : enorm [x] = |x| := by
  rw [enorm, sqNorm]
  simp only [List.map_cons, List.map_nil, List.sum_cons, List.sum_nil, add_zero]
  rw [Real.sqrt_mul_self_eq_abs]

/-- A stopped state is a fixed point of the optimization loop. -/
theorem runLoop_of_stop (cfg : OptConfig) (metric : List ℝ → MetricEval) :
    ∀ (fuel : ℕ) (s : OptState), s.stop = true → runLoop cfg metric fuel s = s
  | 0, _, _ => rfl
  | Nat.succ _, _, h => by rw [runLoop, if_pos h]

/-- One optimizer iteration either stops with the iteration counter
unchanged, or performs a full update: the counter is incremented and the
stop flag and stop condition are set exactly when the counter reaches the
iteration budget. -/
theorem advanceOneStep_cases (cfg : OptConfig) (ev : MetricEval) (s : OptState) :
    ((advanceOneStep cfg ev s).currentIteration = s.currentIteration ∧
      (advanceOneStep cfg ev s).stop = true) ∨
    ((advanceOneStep cfg ev s).currentIteration = s.currentIteration + 1 ∧
      (advanceOneStep cfg ev s).stop =
        (if cfg.numberOfIterations ≤ s.currentIteration + 1 then true else s.stop) ∧
      (advanceOneStep cfg ev s).stopCondition =
        (if cfg.numberOfIterations ≤ s.currentIteration + 1 then
          StopConditionType.MaximumNumberOfIterations else s.stopCondition)) := by
  cases ev with
  | fail f => exact Or.inl ⟨rfl, rfl⟩
  | ok v g0 =>
    have hrw : advanceOneStep cfg (.ok v g0) s = advanceOk cfg v (flipForMaximize cfg g0) s := rfl
    rw [hrw, advanceOk]
    split
    · exact Or.inl ⟨rfl, rfl⟩
    · split
      · exact Or.inl ⟨rfl, rfl⟩
      · exact Or.inr ⟨rfl, rfl, rfl⟩

/-- The loop invariant for the iteration budget: the counter never exceeds
the budget, and if it has reached the budget then the recorded stop
condition is `MaximumNumberOfIterations`. -/
def IterInvariant (cfg : OptConfig) (s : OptState) : Prop :=
  s.currentIteration ≤ cfg.numberOfIterations ∧
  (s.currentIteration = cfg.numberOfIterations →
    s.stopCondition = StopConditionType.MaximumNumberOfIterations)

/-- One trip around the optimization loop preserves the budget invariant. -/
theorem resumeStep_invariant (cfg : OptConfig) (metric : List ℝ → MetricEval)
    (s : OptState) (h : IterInvariant cfg s) :
    IterInvariant cfg (resumeStep cfg metric s) := by
  rw [resumeStep]
  split
  · exact ⟨h.1, fun _ => rfl⟩
  · rename_i hlt
    have hc : s.currentIteration < cfg.numberOfIterations := not_le.1 hlt
    rcases advanceOneStep_cases cfg (metric s.parameters) s with
      ⟨hci, _⟩ | ⟨hci, _, hcond⟩
    · refine ⟨by rw [hci]; exact h.1, fun he => ?_⟩
      exact absurd (hci.symm.trans he) (Nat.ne_of_lt hc)
    · refine ⟨by rw [hci]; omega, fun he => ?_⟩
      rw [hci] at he
      rw [hcond, if_pos (by omega)]

/-- The optimization loop preserves the budget invariant. -/
theorem runLoop_invariant (cfg : OptConfig) (metric : List ℝ → MetricEval)
    (fuel : ℕ) : ∀ s : OptState, IterInvariant cfg s →
    IterInvariant cfg (runLoop cfg metric fuel s) := by
  induction fuel with
  | zero => exact fun s h => h
  | succ n ih =>
    intro s h
    simp only [runLoop]
    split
    · exact h
    · exact ih _ (resumeStep_invariant cfg metric s h)

/-- With enough fuel, the optimization loop reaches a stopped state. -/
theorem runLoop_stops (cfg : OptConfig) (metric : List ℝ → MetricEval)
    (fuel : ℕ) : ∀ s : OptState,
    s.currentIteration ≤ cfg.numberOfIterations →
    cfg.numberOfIterations + 1 ≤ s.currentIteration + fuel →
    (runLoop cfg metric fuel s).stop = true := by
  induction fuel with
  | zero => intro s h1 h2; omega
  | succ n ih =>
    intro s h1 h2
    simp only [runLoop]
    split
    · assumption
    · rw [resumeStep]
      split
      · rw [runLoop_of_stop cfg metric n _ rfl]
      · rename_i hstopf hltN
        rcases advanceOneStep_cases cfg (metric s.parameters) s with
          ⟨hci, hst⟩ | ⟨hci, hst, _⟩
        · rw [runLoop_of_stop cfg metric n _ hst]
          exact hst
        · apply ih
          · rw [hci]; omega
          · rw [hci]; omega

/-! ## Claim theorems -/

/-- C10: a freshly constructed optimizer starts with `Maximize = false`
(minimize mode), `GradientMagnitudeTolerance = 1e-4`,
`MaximumStepLength = 1.0`, `MinimumStepLength = 1e-3`,
`NumberOfIterations = 100`, `CurrentIteration = 0`, `CurrentStepLength = 0`,
`GradientMagnitude = 0`, and `StopCondition = MaximumNumberOfIterations`;
moreover `GetMinimize()` always returns the negation of `GetMaximize()`. -/
theorem optimizer_defaults :
    defaultOptimizer.m_Maximize = false ∧
    defaultOptimizer.m_GradientMagnitudeTolerance = 1 / 10000 ∧
    defaultOptimizer.m_MaximumStepLength = 1 ∧
    defaultOptimizer.m_MinimumStepLength = 1 / 1000 ∧
    defaultOptimizer.m_NumberOfIterations = 100 ∧
    defaultOptimizer.m_CurrentIteration = 0 ∧
    defaultOptimizer.m_CurrentStepLength = 0 ∧
    defaultOptimizer.m_GradientMagnitude = 0 ∧
    defaultOptimizer.m_StopCondition = StopConditionType.MaximumNumberOfIterations ∧
    ∀ o : RSGDEachParameterApartBaseOptimizer, GetMinimize o = !GetMaximize o :=
  ⟨rfl, rfl, rfl, rfl, rfl, rfl, rfl, rfl, rfl, fun _ => rfl⟩

/-- C5: the combiner returns `combinedValue = Σ_i weight_i * value_i` and
`combinedGradient = Σ_i weight_i * gradient_i`, summed only over adapters
with `Use = true`; with a single active metric of weight 1 the combiner
output equals that metric's raw value and gradient exactly. -/
theorem combiner_weighted_sum :
    (∀ ms : List SubMetric,
        combinedValue ms =
          ((ms.filter (fun m => m.use)).map (fun m => m.weight * m.value)).sum) ∧
    (∀ (ms : List SubMetric) (k : ℕ),
        combinedGradient ms k =
          ((ms.filter (fun m => m.use)).map (fun m => m.weight * m.gradient k)).sum) ∧
    (∀ m : SubMetric, m.use = true → m.weight = 1 →
        combinedValue [m] = m.value ∧ ∀ k, combinedGradient [m] k = m.gradient k) := by
  refine ⟨fun ms => ?_, fun ms k => ?_, fun m h1 h2 => ?_⟩
  · induction ms with
    | nil => rfl
    | cons m ms ih =>
      by_cases h : m.use <;>
        simp [combinedValue, List.filter_cons, h, ih]
  · induction ms with
    | nil => rfl
    | cons m ms ih =>
      by_cases h : m.use <;>
        simp [combinedGradient, List.filter_cons, h, ih]
  · constructor
    · simp [combinedValue, h1, h2]
    · intro k
      simp [combinedGradient, h1, h2]

/-- Witness for C5: a single active metric with weight 1, value 5 and
gradient `k + 3` is returned unchanged by the combiner. -/
theorem combiner_weighted_sum_witness :
    combinedValue [⟨true, 1, 5, fun k => (k : ℚ) + 3⟩] = 5 ∧
    combinedGradient [⟨true, 1, 5, fun k => (k : ℚ) + 3⟩] 2 = 5 := by
  have h := combiner_weighted_sum.2.2 ⟨true, 1, 5, fun k => (k : ℚ) + 3⟩ rfl rfl
  refine ⟨h.1, ?_⟩
  rw [h.2 2]
  norm_num

/-- C9: with the sanity check enabled, the metric evaluation fails (with
`SamplesNotAvailable`) exactly when fewer than 1/4 of the drawn samples map
inside the moving image; with the check disabled it never fails; the
per-level `CheckNumberOfSamples` flag defaults to `true`. -/
theorem sampleCheck_spec :
    (∀ numFound numDrawn : ℕ,
        sampleCheckFails true numFound numDrawn = true ↔ 4 * numFound < numDrawn) ∧
    (∀ numFound numDrawn : ℕ, sampleCheckFails false numFound numDrawn = false) ∧
    (∀ level : ℕ, checkNumberOfSamplesAtLevel [] level = true) := by
  refine ⟨fun numFound numDrawn => ?_, fun numFound numDrawn => rfl, fun level => ?_⟩
  · simp [sampleCheckFails]
  · simp [checkNumberOfSamplesAtLevel]

/-- Witness for C9: 1 of 8 samples found fails the enabled check (1 < 8/4),
the disabled check never fails, and an unset flag list defaults to true. -/
theorem sampleCheck_spec_witness :
    sampleCheckFails true 1 8 = true ∧
    sampleCheckFails false 1 8 = false ∧
    checkNumberOfSamplesAtLevel [] 2 = true :=
  ⟨(sampleCheck_spec.1 1 8).mpr (by decide), sampleCheck_spec.2.1 1 8,
    sampleCheck_spec.2.2 2⟩

/-- C4: under dynamic (relative) weighting, an adapter with nonzero
gradient norm gets weight `relativeWeight_i * (||gradient_0|| / ||gradient_i||)`
with adapter 0 as the reference, and an adapter whose gradient norm is
exactly zero gets weight 0 instead of a division error. -/
theorem relativeWeight_formula :
    (∀ (rweight : ℝ) (g0 gi : List ℝ), enorm gi ≠ 0 →
        relativeWeight rweight g0 gi = rweight * (enorm g0 / enorm gi)) ∧
    (∀ (rweight : ℝ) (g0 gi : List ℝ), enorm gi = 0 →
        relativeWeight rweight g0 gi = 0) := by
  constructor
  · intro rweight g0 gi h
    rw [relativeWeight, if_neg h]
  · intro rweight g0 gi h
    rw [relativeWeight, if_pos h]

/-- Witness for C4: the spec's worked example — gradient norms 10 and 2 with
relative weight 1 give computed weight `1 * (10 / 2) = 5`. -/
theorem relativeWeight_formula_witness :
    enorm [(2 : ℝ)] ≠ 0 ∧
    relativeWeight 1 [(10 : ℝ)] [(2 : ℝ)] = 1 * (enorm [(10 : ℝ)] / enorm [(2 : ℝ)]) ∧
    relativeWeight 1 [(10 : ℝ)] [(2 : ℝ)] = 5 := by
  have h2 : enorm [(2 : ℝ)] = 2 := by
    rw [enorm_singleton]
    norm_num
  have h10 : enorm [(10 : ℝ)] = 10 := by
    rw [enorm_singleton]
    norm_num
  have hne : enorm [(2 : ℝ)] ≠ 0 := by
    rw [h2]
    norm_num
  have h := relativeWeight_formula.1 1 [(10 : ℝ)] [(2 : ℝ)] hne
  refine ⟨hne, h, ?_⟩
  rw [h, h2, h10]
  norm_num

/-- C1: on an iteration that reaches the update step (gradient magnitude not
below the tolerance, step lengths not all below the minimum), each parameter
`k` is updated to
`parameter[k] - stepLength[k] * sign(gradient[k]) * |gradient[k]| / gradientMagnitude`,
which is exactly a move by the parameter's own step length along the
normalized gradient direction component `gradient[k] / ||gradient||`. -/
theorem advanceOneStep_update (cfg : OptConfig) (v : ℝ) (g0 : List ℝ) (s : OptState)
    (hmag : ¬ enorm (flipForMaximize cfg g0) < cfg.gradientMagnitudeTolerance)
    (hsmall : ¬ ∀ st ∈ adaptSteps cfg (flipForMaximize cfg g0)
        s.previousGradient s.currentStepLengths, st < cfg.minimumStepLength) :
    (advanceOneStep cfg (.ok v g0) s).parameters =
      zipWith3 (fun p stk gk => p - stk * gk / enorm (flipForMaximize cfg g0))
        s.parameters
        (adaptSteps cfg (flipForMaximize cfg g0) s.previousGradient s.currentStepLengths)
        (flipForMaximize cfg g0) := by
  have hrw : advanceOneStep cfg (.ok v g0) s = advanceOk cfg v (flipForMaximize cfg g0) s := rfl
  rw [hrw, advanceOk, if_neg hmag, if_neg hsmall]
  show stepParams _ _ _ _ = _
  rw [stepParams]
  exact zipWith3_congr (fun p stk gk => by rw [sign_mul_abs_eq]) _ _ _

/-- Configuration used by the C1 witness: minimize mode, zero tolerance and
zero minimum step length, maximum step length 1, factors 2 and 1/2. -/
noncomputable def c1cfg : OptConfig := ⟨false, 0, 1, 0, 100, 2, 1 / 2⟩

/-- State used by the C1 witness: one parameter with value 1, step length 1,
zero previous gradient. -/
noncomputable def c1state : OptState :=
  ⟨[1], [1], [0], 0, false, .MaximumNumberOfIterations, 0, [], 0⟩

/-- Witness for C1: at gradient `[1]` the hypotheses hold and the update has
the stated normalized form. -/
theorem advanceOneStep_update_witness :
    (¬ enorm (flipForMaximize c1cfg [1]) < c1cfg.gradientMagnitudeTolerance) ∧
    (¬ ∀ st ∈ adaptSteps c1cfg (flipForMaximize c1cfg [1])
        c1state.previousGradient c1state.currentStepLengths,
        st < c1cfg.minimumStepLength) ∧
    (advanceOneStep c1cfg (.ok 0 [1]) c1state).parameters =
      zipWith3 (fun p stk gk => p - stk * gk / enorm (flipForMaximize c1cfg [1]))
        c1state.parameters
        (adaptSteps c1cfg (flipForMaximize c1cfg [1])
          c1state.previousGradient c1state.currentStepLengths)
        (flipForMaximize c1cfg [1]) := by
  have hmag : ¬ enorm (flipForMaximize c1cfg [1]) < c1cfg.gradientMagnitudeTolerance := by
    rw [not_lt]
    show (0 : ℝ) ≤ enorm _
    exact Real.sqrt_nonneg _
  have hstep : adaptSteps c1cfg (flipForMaximize c1cfg [1])
      c1state.previousGradient c1state.currentStepLengths = [(1 : ℝ)] := by
    show adaptSteps c1cfg [1] [0] [1] = [(1 : ℝ)]
    simp only [adaptSteps, zipWith3, adaptStep, c1cfg]
    rw [if_pos (by norm_num : (0 : ℝ) ≤ 1 * 0)]
    rw [show ((1 : ℝ) * 2) = 2 by norm_num,
      min_eq_right (by norm_num : (1 : ℝ) ≤ 2)]
  have hsmall : ¬ ∀ st ∈ adaptSteps c1cfg (flipForMaximize c1cfg [1])
      c1state.previousGradient c1state.currentStepLengths,
      st < c1cfg.minimumStepLength := by
    rw [hstep]
    intro h
    have h1 := h 1 (by simp)
    norm_num [c1cfg] at h1
  exact ⟨hmag, hsmall, advanceOneStep_update c1cfg 0 [1] c1state hmag hsmall⟩

/-- The step length of one parameter across iterations: `adaptIter cfg gs ps
st0 n` is the step length after `n` adaptations against the gradient signs
`gs` (current) and `ps` (previous). -/
noncomputable def adaptIter (cfg : OptConfig) (gs ps : ℕ → ℝ) (st0 : ℝ) : ℕ → ℝ
  | 0 => st0
  | Nat.succ n => adaptStep cfg (gs n) (ps n) (adaptIter cfg gs ps st0 n)

/-- C2: when the signs of the current and previous gradient components agree
(zero counting as agreement), the step length is increased multiplicatively
but never beyond `MaximumStepLength`; when they disagree it is decreased
multiplicatively; hence over `K` consecutive sign-agreeing iterations the
step length is non-decreasing and capped at `MaximumStepLength`. -/
theorem stepLength_adaptation (cfg : OptConfig) (hinc : 1 ≤ cfg.increaseFactor) :
    (∀ g p st : ℝ, 0 ≤ g * p → 0 ≤ st → st ≤ cfg.maximumStepLength →
        st ≤ adaptStep cfg g p st ∧ adaptStep cfg g p st ≤ cfg.maximumStepLength) ∧
    (∀ g p st : ℝ, g * p < 0 → adaptStep cfg g p st = st * cfg.decreaseFactor) ∧
    (∀ (gs ps : ℕ → ℝ) (st0 : ℝ) (K : ℕ),
        (∀ i, i < K → 0 ≤ gs i * ps i) → 0 ≤ st0 → st0 ≤ cfg.maximumStepLength →
        ∀ j, j < K →
          adaptIter cfg gs ps st0 j ≤ adaptIter cfg gs ps st0 (j + 1) ∧
          adaptIter cfg gs ps st0 (j + 1) ≤ cfg.maximumStepLength) := by
  have one : ∀ g p st : ℝ, 0 ≤ g * p → 0 ≤ st → st ≤ cfg.maximumStepLength →
      st ≤ adaptStep cfg g p st ∧ adaptStep cfg g p st ≤ cfg.maximumStepLength := by
    intro g p st hgp h0 hmax
    rw [adaptStep, if_pos hgp]
    exact ⟨le_min (le_mul_of_one_le_right h0 hinc) hmax, min_le_right _ _⟩
  have nonneg : ∀ g p st : ℝ, 0 ≤ g * p → 0 ≤ st → st ≤ cfg.maximumStepLength →
      0 ≤ adaptStep cfg g p st := by
    intro g p st hgp h0 hmax
    rw [adaptStep, if_pos hgp]
    exact le_min (mul_nonneg h0 (le_trans zero_le_one hinc)) (le_trans h0 hmax)
  refine ⟨one, fun g p st hgp => ?_, ?_⟩
  · rw [adaptStep, if_neg (not_le.2 hgp)]
  · intro gs ps st0 K hagree h0 hmax
    have inv : ∀ j, j ≤ K → 0 ≤ adaptIter cfg gs ps st0 j ∧
        adaptIter cfg gs ps st0 j ≤ cfg.maximumStepLength := by
      intro j
      induction j with
      | zero => exact fun _ => ⟨h0, hmax⟩
      | succ n ih =>
        intro hle
        have hn := ih (Nat.le_of_succ_le hle)
        have hg := hagree n (Nat.lt_of_succ_le hle)
        exact ⟨nonneg _ _ _ hg hn.1 hn.2, (one _ _ _ hg hn.1 hn.2).2⟩
    intro j hj
    have hn := inv j (Nat.le_of_lt hj)
    exact ⟨(one _ _ _ (hagree j hj) hn.1 hn.2).1, (one _ _ _ (hagree j hj) hn.1 hn.2).2⟩

/-- Witness for C2: with increase factor 2 and maximum step length 1, a step
length of 1/2 on a sign-agreeing component grows but stays within the cap. -/
theorem stepLength_adaptation_witness :
    (1 : ℝ) ≤ (⟨false, 0, 1, 0, 10, 2, 1 / 2⟩ : OptConfig).increaseFactor ∧
    ((1 : ℝ) / 2 ≤ adaptStep ⟨false, 0, 1, 0, 10, 2, 1 / 2⟩ 1 1 (1 / 2) ∧
      adaptStep ⟨false, 0, 1, 0, 10, 2, 1 / 2⟩ 1 1 (1 / 2) ≤
        (⟨false, 0, 1, 0, 10, 2, 1 / 2⟩ : OptConfig).maximumStepLength) := by
  have hinc : (1 : ℝ) ≤ (⟨false, 0, 1, 0, 10, 2, 1 / 2⟩ : OptConfig).increaseFactor := by
    norm_num
  have h := (stepLength_adaptation ⟨false, 0, 1, 0, 10, 2, 1 / 2⟩ hinc).1
    1 1 (1 / 2) (by norm_num) (by norm_num) (by norm_num)
  exact ⟨hinc, h⟩

/-- C8: each iteration computes the gradient magnitude as the Euclidean norm
of the (possibly sign-flipped) gradient, and when it is below
`GradientMagnitudeTolerance` the optimizer stops with stop condition
`GradientMagnitudeTolerance` with the parameters untouched. -/
theorem gradientMagnitudeTolerance_stop (cfg : OptConfig) (v : ℝ) (g0 : List ℝ)
    (s : OptState)
    (hmag : enorm (flipForMaximize cfg g0) < cfg.gradientMagnitudeTolerance) :
    advanceOneStep cfg (.ok v g0) s =
      { s with value := v, gradient := flipForMaximize cfg g0,
               gradientMagnitude := Real.sqrt (sqNorm (flipForMaximize cfg g0)),
               stop := true, stopCondition := .GradientMagnitudeTolerance } ∧
    (advanceOneStep cfg (.ok v g0) s).parameters = s.parameters := by
  have hrw : advanceOneStep cfg (.ok v g0) s = advanceOk cfg v (flipForMaximize cfg g0) s := rfl
  constructor
  · rw [hrw, advanceOk, if_pos hmag]
    rfl
  · rw [hrw, advanceOk, if_pos hmag]

/-- Configuration used by the C8 witness: tolerance 1. -/
noncomputable def c8cfg : OptConfig := ⟨false, 1, 1, 0, 100, 2, 1 / 2⟩

/-- State used by the C8 witness. -/
noncomputable def c8state : OptState :=
  ⟨[1, 2], [1, 1], [0, 0], 0, false, .MaximumNumberOfIterations, 0, [], 0⟩

/-- Witness for C8: a zero gradient has Euclidean norm 0 below the tolerance
1, so the optimizer stops with `GradientMagnitudeTolerance` and unchanged
parameters. -/
theorem gradientMagnitudeTolerance_stop_witness :
    enorm (flipForMaximize c8cfg [0, 0]) < c8cfg.gradientMagnitudeTolerance ∧
    (advanceOneStep c8cfg (.ok 3 [0, 0]) c8state).parameters = c8state.parameters ∧
    (advanceOneStep c8cfg (.ok 3 [0, 0]) c8state).stopCondition =
      .GradientMagnitudeTolerance := by
  have hmag : enorm (flipForMaximize c8cfg [0, 0]) < c8cfg.gradientMagnitudeTolerance := by
    show Real.sqrt (sqNorm [(0 : ℝ), 0]) < 1
    have hz : sqNorm [(0 : ℝ), 0] = 0 := by
      simp [sqNorm]
    rw [hz, Real.sqrt_zero]
    norm_num
  have h := gradientMagnitudeTolerance_stop c8cfg 3 [0, 0] c8state hmag
  exact ⟨hmag, h.2, by rw [h.1]⟩

/-- C7: on an iteration with gradient magnitude not below the tolerance, the
optimizer stops with `StepTooSmall` exactly when every adapted per-parameter
step length is below `MinimumStepLength`; moreover on a sign-disagreement
component the step length strictly decreases (for a decrease factor strictly
between 0 and 1 and a positive step length). -/
theorem stepTooSmall_characterization (cfg : OptConfig) (v : ℝ) (g0 : List ℝ)
    (s : OptState) (hstop : s.stop = false)
    (hmag : ¬ enorm (flipForMaximize cfg g0) < cfg.gradientMagnitudeTolerance) :
    (((advanceOneStep cfg (.ok v g0) s).stop = true ∧
        (advanceOneStep cfg (.ok v g0) s).stopCondition = .StepTooSmall) ↔
      (∀ st ∈ adaptSteps cfg (flipForMaximize cfg g0)
          s.previousGradient s.currentStepLengths, st < cfg.minimumStepLength)) ∧
    (∀ g p st : ℝ, g * p < 0 → 0 < st → 0 < cfg.decreaseFactor →
        cfg.decreaseFactor < 1 → adaptStep cfg g p st < st) := by
  have hrw : advanceOneStep cfg (.ok v g0) s = advanceOk cfg v (flipForMaximize cfg g0) s := rfl
  constructor
  · by_cases hall : ∀ st ∈ adaptSteps cfg (flipForMaximize cfg g0)
        s.previousGradient s.currentStepLengths, st < cfg.minimumStepLength
    · rw [hrw, advanceOk, if_neg hmag, if_pos hall]
      exact ⟨fun _ => hall, fun _ => ⟨rfl, rfl⟩⟩
    · rw [hrw, advanceOk, if_neg hmag, if_neg hall]
      constructor
      · intro h
        exfalso
        by_cases hN : cfg.numberOfIterations ≤ s.currentIteration + 1
        · have hc : (if cfg.numberOfIterations ≤ s.currentIteration + 1 then
              StopConditionType.MaximumNumberOfIterations else s.stopCondition) =
              StopConditionType.StepTooSmall := h.2
          rw [if_pos hN] at hc
          exact StopConditionType.noConfusion hc
        · have hb : (if cfg.numberOfIterations ≤ s.currentIteration + 1 then true
              else s.stop) = true := h.1
          rw [if_neg hN, hstop] at hb
          exact Bool.noConfusion hb
      · intro h
        exact absurd h hall
  · intro g p st hgp hst hd0 hd1
    rw [adaptStep, if_neg (not_le.2 hgp)]
    exact mul_lt_of_lt_one_right hst hd1

/-- Configuration used by the C7 witness: zero tolerance, minimum step
length 10 (so the adapted step lengths are all below it). -/
noncomputable def c7cfg : OptConfig := ⟨false, 0, 1, 10, 100, 2, 1 / 2⟩

/-- State used by the C7 witness. -/
noncomputable def c7state : OptState :=
  ⟨[1], [1], [0], 0, false, .MaximumNumberOfIterations, 0, [], 0⟩

/-- Witness for C7: with minimum step length 10 the single adapted step
length 1 is below it, so the optimizer stops with `StepTooSmall`; a
sign-disagreeing component's step length strictly decreases. -/
theorem stepTooSmall_characterization_witness :
    c7state.stop = false ∧
    (¬ enorm (flipForMaximize c7cfg [1]) < c7cfg.gradientMagnitudeTolerance) ∧
    (advanceOneStep c7cfg (.ok 0 [1]) c7state).stop = true ∧
    (advanceOneStep c7cfg (.ok 0 [1]) c7state).stopCondition = .StepTooSmall ∧
    adaptStep c7cfg (-1) 1 1 < 1 := by
  have hmag : ¬ enorm (flipForMaximize c7cfg [1]) < c7cfg.gradientMagnitudeTolerance := by
    rw [not_lt]
    show (0 : ℝ) ≤ enorm _
    exact Real.sqrt_nonneg _
  have h := stepTooSmall_characterization c7cfg 0 [1] c7state rfl hmag
  have hstep : adaptSteps c7cfg (flipForMaximize c7cfg [1])
      c7state.previousGradient c7state.currentStepLengths = [(1 : ℝ)] := by
    show adaptSteps c7cfg [1] [0] [1] = [(1 : ℝ)]
    simp only [adaptSteps, zipWith3, adaptStep, c7cfg]
    rw [if_pos (by norm_num : (0 : ℝ) ≤ 1 * 0)]
    rw [show ((1 : ℝ) * 2) = 2 by norm_num,
      min_eq_right (by norm_num : (1 : ℝ) ≤ 2)]
  have hall : ∀ st ∈ adaptSteps c7cfg (flipForMaximize c7cfg [1])
      c7state.previousGradient c7state.currentStepLengths,
      st < c7cfg.minimumStepLength := by
    rw [hstep]
    intro st hst
    rw [List.mem_singleton] at hst
    subst hst
    show (1 : ℝ) < 10
    norm_num
  have hdec := h.2 (-1) 1 1 (by norm_num) (by norm_num)
    (by norm_num [c7cfg]) (by norm_num [c7cfg])
  exact ⟨rfl, hmag, (h.1.mpr hall).1, (h.1.mpr hall).2, hdec⟩

/-- C3: for every parameter vector and configuration, `StartOptimization`
terminates with the stop flag set after at most `NumberOfIterations`
iterations, with exactly one stop condition from the enumerated set
recorded; in particular when the iteration counter reaches
`NumberOfIterations` the recorded stop condition is
`MaximumNumberOfIterations`. -/
theorem startOptimization_terminates (cfg : OptConfig) (metric : List ℝ → MetricEval)
    (p : List ℝ) :
    (startOptimization cfg metric p).stop = true ∧
    (startOptimization cfg metric p).currentIteration ≤ cfg.numberOfIterations ∧
    (∃! c : StopConditionType, (startOptimization cfg metric p).stopCondition = c) ∧
    ((startOptimization cfg metric p).currentIteration = cfg.numberOfIterations →
      (startOptimization cfg metric p).stopCondition =
        StopConditionType.MaximumNumberOfIterations) := by
  have hinv : IterInvariant cfg (startOptimization cfg metric p) := by
    rw [startOptimization, resumeOptimization]
    exact runLoop_invariant cfg metric _ _ ⟨Nat.zero_le _, fun _ => rfl⟩
  have hstop : (startOptimization cfg metric p).stop = true := by
    rw [startOptimization, resumeOptimization]
    apply runLoop_stops
    · exact Nat.zero_le _
    · show cfg.numberOfIterations + 1 ≤ 0 + (cfg.numberOfIterations + 1 - 0)
      omega
  exact ⟨hstop, hinv.1, ⟨_, rfl, fun c hc => hc.symm⟩, hinv.2⟩

/-- Configuration used by the C3 witness: a zero iteration budget. -/
noncomputable def c3cfg : OptConfig := ⟨false, 0, 1, 0, 0, 2, 1 / 2⟩

/-- Metric used by the C3 witness (never actually evaluated). -/
noncomputable def c3metric : List ℝ → MetricEval := fun _ => .fail .metricError

/-- Witness for C3: with `NumberOfIterations = 0` the optimizer stops at
iteration 0 = `NumberOfIterations` with `MaximumNumberOfIterations`. -/
theorem startOptimization_terminates_witness :
    (startOptimization c3cfg c3metric [1]).stop = true ∧
    (startOptimization c3cfg c3metric [1]).currentIteration = c3cfg.numberOfIterations ∧
    (startOptimization c3cfg c3metric [1]).stopCondition =
      StopConditionType.MaximumNumberOfIterations := by
  have h := startOptimization_terminates c3cfg c3metric [1]
  have hci : (startOptimization c3cfg c3metric [1]).currentIteration =
      c3cfg.numberOfIterations := rfl
  exact ⟨h.1, hci, h.2.2.2 hci⟩

/-- C6: if the metric evaluation fails at the start of an iteration (for
example with `SamplesNotAvailable`), the optimizer stops at that iteration
with the corresponding stop condition, and the parameter vector and
iteration counter are left exactly as they were — no partial update is
applied and the failure is not retried. -/
theorem metricFailure_stops (cfg : OptConfig) (metric : List ℝ → MetricEval)
    (s : OptState) (f : MetricFailure)
    (hstop : s.stop = false)
    (hit : s.currentIteration < cfg.numberOfIterations)
    (hm : metric s.parameters = .fail f) :
    resumeOptimization cfg metric s =
      { s with stop := true, stopCondition := f.toStopCondition } ∧
    (resumeOptimization cfg metric s).parameters = s.parameters ∧
    (resumeOptimization cfg metric s).currentIteration = s.currentIteration := by
  have key : resumeOptimization cfg metric s =
      { s with stop := true, stopCondition := f.toStopCondition } := by
    have hfuel : cfg.numberOfIterations + 1 - s.currentIteration =
        (cfg.numberOfIterations - s.currentIteration) + 1 := by omega
    rw [resumeOptimization, hfuel]
    simp only [runLoop]
    rw [hstop]
    rw [if_neg (by simp)]
    rw [resumeStep, if_neg (not_le.2 hit), hm]
    show runLoop cfg metric _ { s with stop := true, stopCondition := f.toStopCondition } = _
    exact runLoop_of_stop cfg metric _ _ rfl
  exact ⟨key, by rw [key], by rw [key]⟩

/-- Configuration used by the C6 witness. -/
noncomputable def c6cfg : OptConfig := ⟨false, 0, 1, 0, 100, 2, 1 / 2⟩

/-- Metric used by the C6 witness: always reports `SamplesNotAvailable`. -/
noncomputable def c6metric : List ℝ → MetricEval := fun _ => .fail .samplesNotAvailable

/-- State used by the C6 witness. -/
noncomputable def c6state : OptState :=
  ⟨[5, 7], [1, 1], [0, 0], 0, false, .MaximumNumberOfIterations, 0, [], 0⟩

/-- Witness for C6: a metric reporting `SamplesNotAvailable` stops the run
with that stop condition and leaves the parameters `[5, 7]` untouched. -/
theorem metricFailure_stops_witness :
    c6state.stop = false ∧
    c6state.currentIteration < c6cfg.numberOfIterations ∧
    c6metric c6state.parameters = .fail .samplesNotAvailable ∧
    (resumeOptimization c6cfg c6metric c6state).parameters = c6state.parameters ∧
    (resumeOptimization c6cfg c6metric c6state).stopCondition =
      StopConditionType.SamplesNotAvailable ∧
    (resumeOptimization c6cfg c6metric c6state).currentIteration = 0 := by
  have h := metricFailure_stops c6cfg c6metric c6state .samplesNotAvailable rfl
    (by show 0 < 100; norm_num) rfl
  refine ⟨rfl, by show 0 < 100; norm_num, rfl, h.2.1, ?_, h.2.2⟩
  rw [h.1]
  rfl

end Elastix
